import Mathlib

/-!
Verification of `src/core_metrics.py` (operational-metrics-tracker).

Shallow embedding conventions:
- Python floats (monetary amounts) are modelled as `Rat`, since the claims
  are about the exact arithmetic relations the code computes.
- Python `datetime` values are modelled as `Int` (seconds on a linear
  timeline); `timedelta.days` is floor division of the signed difference
  in seconds by 86400, which matches CPython's normalisation of
  `timedelta` (days is the floor component).
- Wall-clock reads (`datetime.now()`) become an explicit `now : Int`
  argument to each operation that reads the clock.
- Query methods are additionally embedded as `StateM` computations over
  the tracker state, mirroring that the Python method bodies only read
  `self`; the frame claims are stated about those.
-/

/-- One entry of `BudgetTracker.transactions`: the dict
`{"date": ..., "amount": ..., "category": ..., "description": ...}`
appended by `add_expense`. -/
structure Transaction where
  date : Int
  amount : Rat
  category : String
  descr : String
deriving DecidableEq, Repr

/-- State of the Python class `BudgetTracker`. -/
structure BudgetTracker where
  name : String
  planned_budget : Rat
  actual_spent : Rat
  transactions : List Transaction
deriving DecidableEq, Repr

namespace BudgetTracker

/-- `BudgetTracker.__init__(planned_budget, name)`:
`actual_spent = 0.0`, `transactions = []`. -/
def init (planned_budget : Rat) (name : String) : BudgetTracker :=
  ⟨name, planned_budget, 0, []⟩

/-- `BudgetTracker.add_expense(amount, category, description)` with the
wall clock reading `now`: `actual_spent += amount` and one dict with the
current timestamp, `amount`, `category`, `description` is appended to
`transactions`. -/
def add_expense (b : BudgetTracker) (now : Int) (amount : Rat)
    (category descr : String) : BudgetTracker :=
  { b with
    actual_spent := b.actual_spent + amount
    transactions := b.transactions ++ [⟨now, amount, category, descr⟩] }

/-- `BudgetTracker.get_budget_variance()`: `actual_spent - planned_budget`. -/
def get_budget_variance (b : BudgetTracker) : Rat :=
  b.actual_spent - b.planned_budget

/-- `BudgetTracker.get_budget_utilization()`: returns `0.0` when
`planned_budget == 0`, else `(actual_spent / planned_budget) * 100`. -/
def get_budget_utilization (b : BudgetTracker) : Rat :=
  if b.planned_budget = 0 then 0
  else (b.actual_spent / b.planned_budget) * 100

/-- `get_budget_variance` as a method on the object state: the body only
reads `self`, it contains no assignment to any field. -/
def get_budget_variance_s : StateM BudgetTracker Rat := do
  let self ← get
  pure (self.actual_spent - self.planned_budget)

/-- `get_budget_utilization` as a method on the object state: the body
only reads `self`, it contains no assignment to any field. -/
def get_budget_utilization_s : StateM BudgetTracker Rat := do
  let self ← get
  if self.planned_budget = 0 then
    pure 0
  else
    pure ((self.actual_spent / self.planned_budget) * 100)

end BudgetTracker

/-- One `add_expense` call: the wall-clock time at the call together with
the `amount`, `category` and `description` arguments. -/
structure ExpenseCall where
  now : Int
  amount : Rat
  category : String
  descr : String
deriving DecidableEq, Repr

/-- The transaction dict that `add_expense` builds from a call. -/
def ExpenseCall.toTransaction (c : ExpenseCall) : Transaction :=
  ⟨c.now, c.amount, c.category, c.descr⟩

/-- Apply a sequence of `add_expense` calls to a tracker, in order. -/
def applyExpenses (b : BudgetTracker) : List ExpenseCall → BudgetTracker
  | [] => b
  | c :: cs => applyExpenses (b.add_expense c.now c.amount c.category c.descr) cs

/-- Sum of the `amount` fields of a transaction list. -/
def sumAmounts (ts : List Transaction) : Rat :=
  (ts.map Transaction.amount).sum

/-- Seconds in a day; `timedelta.days` divides by this. -/
def secondsPerDay : Int := 86400

/-- CPython `timedelta(...).days` for a signed difference of `diff`
seconds: the floor of `diff / 86400` (timedelta normalises so that
`0 <= seconds < 86400` and `days` carries the sign). -/
def timedelta_days (diff : Int) : Int :=
  Int.fdiv diff secondsPerDay

/-- State of the Python class `TimelineTracker`. -/
structure TimelineTracker where
  name : String
  planned_end_date : Int
  actual_end_date : Option Int
deriving DecidableEq, Repr

namespace TimelineTracker

/-- `TimelineTracker.__init__(planned_end_date, name)`:
`actual_end_date = None`. -/
def init (planned_end_date : Int) (name : String) : TimelineTracker :=
  ⟨name, planned_end_date, none⟩

/-- `TimelineTracker.mark_completed(completion_date)` with the wall clock
reading `now`: `actual_end_date = completion_date or datetime.now()`.
A `datetime` object is always truthy in Python, so the `or` falls through
to `now` exactly when the argument is `None`. -/
def mark_completed (t : TimelineTracker) (now : Int)
    (completion_date : Option Int) : TimelineTracker :=
  { t with actual_end_date := some (completion_date.getD now) }

/-- `TimelineTracker.is_delayed()` with the wall clock reading `now`:
compares `now` with the plan while `actual_end_date is None`, otherwise
compares `actual_end_date` with the plan. -/
def is_delayed (t : TimelineTracker) (now : Int) : Bool :=
  match t.actual_end_date with
  | none => now > t.planned_end_date
  | some d => d > t.planned_end_date

/-- `TimelineTracker.get_delay_days()` with the wall clock reading `now`:
`.days` of the difference from the plan, using `now` while not completed
and `actual_end_date` once completed. -/
def get_delay_days (t : TimelineTracker) (now : Int) : Int :=
  match t.actual_end_date with
  | none => timedelta_days (now - t.planned_end_date)
  | some d => timedelta_days (d - t.planned_end_date)

/-- `is_delayed` as a method on the object state: the body only reads
`self`, it contains no assignment to any field. -/
def is_delayed_s (now : Int) : StateM TimelineTracker Bool := do
  let self ← get
  match self.actual_end_date with
  | none => pure (now > self.planned_end_date)
  | some d => pure (d > self.planned_end_date)

/-- `get_delay_days` as a method on the object state: the body only reads
`self`, it contains no assignment to any field. -/
def get_delay_days_s (now : Int) : StateM TimelineTracker Int := do
  let self ← get
  match self.actual_end_date with
  | none => pure (timedelta_days (now - self.planned_end_date))
  | some d => pure (timedelta_days (d - self.planned_end_date))

end TimelineTracker

/-- One `mark_completed` call: the wall-clock time at the call and the
(optional) `completion_date` argument. -/
structure CompletionCall where
  now : Int
  completion_date : Option Int
deriving DecidableEq, Repr

/-- Apply a sequence of `mark_completed` calls to a tracker, in order. -/
def applyCompletions (t : TimelineTracker) : List CompletionCall → TimelineTracker
  | [] => t
  | c :: cs => applyCompletions (t.mark_completed c.now c.completion_date) cs

/-! ## Helper lemmas -/

theorem amount_toTransaction :
    Transaction.amount ∘ ExpenseCall.toTransaction = ExpenseCall.amount := rfl

theorem applyExpenses_transactions (b : BudgetTracker) (calls : List ExpenseCall) :
    (applyExpenses b calls).transactions
      = b.transactions ++ calls.map ExpenseCall.toTransaction := by
  induction calls generalizing b with
  | nil => simp [applyExpenses]
  | cons c cs ih =>
      simp [applyExpenses, ih, BudgetTracker.add_expense, ExpenseCall.toTransaction]

theorem applyExpenses_actual_spent (b : BudgetTracker) (calls : List ExpenseCall) :
    (applyExpenses b calls).actual_spent
      = b.actual_spent + (calls.map ExpenseCall.amount).sum := by
  induction calls generalizing b with
  | nil => simp [applyExpenses]
  | cons c cs ih =>
      simp [applyExpenses, ih, BudgetTracker.add_expense]
      ring

theorem applyCompletions_isSome (u : TimelineTracker) (calls : List CompletionCall)
    (h : u.actual_end_date.isSome) :
    (applyCompletions u calls).actual_end_date.isSome := by
  induction calls generalizing u with
  | nil => exact h
  | cons c cs ih => exact ih _ (by simp [TimelineTracker.mark_completed])

/-! ## Claims -/

/-- C1: for every `BudgetTracker` and every sequence of `add_expense`
calls applied after construction, `actual_spent` equals the sum of the
`amount` fields of all records in `transactions` (instantiating `calls`
with each prefix of the sequence gives the invariant after construction
and after each call). -/
theorem C1_actual_spent_eq_sum_transactions (planned : Rat) (name : String)
    (calls : List ExpenseCall) :
    (applyExpenses (BudgetTracker.init planned name) calls).actual_spent
      = sumAmounts (applyExpenses (BudgetTracker.init planned name) calls).transactions := by
  simp [applyExpenses_actual_spent, applyExpenses_transactions, sumAmounts,
        BudgetTracker.init, List.map_map, amount_toTransaction]

/-- C2: `get_budget_variance()` returns exactly
`actual_spent - planned_budget`, for every tracker state, with no
precondition on the signs or magnitudes of either field. -/
theorem C2_variance (b : BudgetTracker) :
    b.get_budget_variance = b.actual_spent - b.planned_budget := rfl

/-- C3: when `planned_budget == 0`, `get_budget_utilization()` returns 0
regardless of `actual_spent`; the function is total, so no error is
raised. -/
theorem C3_utilization_zero_budget (b : BudgetTracker)
    (h : b.planned_budget = 0) :
    b.get_budget_utilization = 0 := by
  simp [BudgetTracker.get_budget_utilization, h]

/-- Witness for C3 at the concrete state `planned_budget = 0`,
`actual_spent = 100`. -/
theorem C3_utilization_zero_budget_witness :
    (BudgetTracker.mk "Zero" 0 100 []).get_budget_utilization = 0 :=
  C3_utilization_zero_budget (BudgetTracker.mk "Zero" 0 100 []) rfl

/-- C4: when `planned_budget != 0`, `get_budget_utilization()` returns
`(actual_spent / planned_budget) * 100`. -/
theorem C4_utilization_nonzero_budget (b : BudgetTracker)
    (h : b.planned_budget ≠ 0) :
    b.get_budget_utilization = (b.actual_spent / b.planned_budget) * 100 := by
  simp [BudgetTracker.get_budget_utilization, h]

/-- Witness for C4 at the concrete state `planned_budget = 200`,
`actual_spent = 100`: utilization is 50. -/
theorem C4_utilization_nonzero_budget_witness :
    (BudgetTracker.mk "P" 200 100 []).get_budget_utilization = 50 := by
  rw [C4_utilization_nonzero_budget (BudgetTracker.mk "P" 200 100 []) (by norm_num)]
  norm_num

/-- C5: `add_expense(amount, category, description)` appends exactly one
record holding that amount, category and description at the end of
`transactions` and increases `actual_spent` by exactly `amount`;
consequently after any sequence of `n` calls from construction,
`transactions` consists of the `n` corresponding records in call order,
so its length equals `n`. -/
theorem C5_add_expense_appends (b : BudgetTracker) (now : Int) (amount : Rat)
    (category descr : String) (planned : Rat) (name : String)
    (calls : List ExpenseCall) :
    (b.add_expense now amount category descr).transactions
        = b.transactions ++ [Transaction.mk now amount category descr]
    ∧ (b.add_expense now amount category descr).actual_spent
        = b.actual_spent + amount
    ∧ (applyExpenses (BudgetTracker.init planned name) calls).transactions
        = calls.map ExpenseCall.toTransaction
    ∧ (applyExpenses (BudgetTracker.init planned name) calls).transactions.length
        = calls.length := by
  refine ⟨rfl, rfl, ?_, ?_⟩ <;>
    simp [applyExpenses_transactions, BudgetTracker.init]

/-- `datetime(2020, 9, 1)` as epoch seconds (18506 days since 1970-01-01). -/
def date_2020_09_01 : Int := 18506 * 86400

/-- `datetime(2020, 8, 25)` as epoch seconds (7 days before 2020-09-01). -/
def date_2020_08_25 : Int := 18499 * 86400

/-- `datetime(2020, 9, 10)` as epoch seconds (9 days after 2020-09-01). -/
def date_2020_09_10 : Int := 18515 * 86400

/-- C6 counterexample: `add_expense` accepts a negative amount (the code
performs `actual_spent += amount` with no sign validation), so on a fresh
tracker a call with amount `-1` strictly decreases `actual_spent` from
`0` to `-1`: `actual_spent` is not non-decreasing across every call. -/
theorem C6_counterexample :
    ¬ ((BudgetTracker.init 100 "Project").actual_spent
        ≤ ((BudgetTracker.init 100 "Project").add_expense 0 (-1) "refund" "").actual_spent) := by
  simp [BudgetTracker.init, BudgetTracker.add_expense]

/-- C6 amended: across each `add_expense(amount, ...)` call,
`actual_spent` changes by exactly `amount`; in particular it is
non-decreasing across every call whose `amount` is non-negative. -/
theorem C6_amended_monotone_for_nonneg (b : BudgetTracker) (now : Int)
    (amount : Rat) (category descr : String) (h : 0 ≤ amount) :
    b.actual_spent ≤ (b.add_expense now amount category descr).actual_spent := by
  simp [BudgetTracker.add_expense]
  linarith

/-- Witness for the amended C6 at a concrete call with amount 5. -/
theorem C6_amended_monotone_for_nonneg_witness :
    (BudgetTracker.init 100 "Project").actual_spent
      ≤ ((BudgetTracker.init 100 "Project").add_expense 0 5 "IT" "").actual_spent :=
  C6_amended_monotone_for_nonneg (BudgetTracker.init 100 "Project") 0 5 "IT" ""
    (by norm_num)

/-- C7: after `mark_completed(d)` with an explicit date `d` (and no later
`mark_completed` call), `is_delayed()` returns exactly
`d > planned_end_date`, whatever the wall-clock time `nowm` at the
completion call was, and the result is the same at any two wall-clock
times `now1`, `now2` at which `is_delayed` is called. -/
theorem C7_is_delayed_after_explicit_completion (t : TimelineTracker)
    (nowm d now1 now2 : Int) :
    ((t.mark_completed nowm (some d)).is_delayed now1
        = decide (d > t.planned_end_date))
    ∧ ((t.mark_completed nowm (some d)).is_delayed now1
        = (t.mark_completed nowm (some d)).is_delayed now2) := by
  constructor <;>
    simp [TimelineTracker.mark_completed, TimelineTracker.is_delayed]

/-- C8: after `mark_completed(d)` with an explicit date `d`,
`get_delay_days()` returns the whole-day difference
`d - planned_end_date` (the `.days` floor of the signed difference),
independent of the wall clock; it is negative whenever `d` precedes
`planned_end_date`; with plan 2020-09-01 it returns `-7` for
`d` = 2020-08-25 and `9` for `d` = 2020-09-10. -/
theorem C8_delay_days_after_explicit_completion (t : TimelineTracker)
    (nowm d now : Int) :
    ((t.mark_completed nowm (some d)).get_delay_days now
        = timedelta_days (d - t.planned_end_date))
    ∧ (d < t.planned_end_date →
        (t.mark_completed nowm (some d)).get_delay_days now < 0)
    ∧ (((TimelineTracker.init date_2020_09_01 "Launch").mark_completed nowm
          (some date_2020_08_25)).get_delay_days now = -7)
    ∧ (((TimelineTracker.init date_2020_09_01 "Launch").mark_completed nowm
          (some date_2020_09_10)).get_delay_days now = 9) := by
  refine ⟨rfl, ?_, rfl, rfl⟩
  intro hlt
  show timedelta_days (d - t.planned_end_date) < 0
  unfold timedelta_days secondsPerDay
  rw [Int.fdiv_eq_ediv _ (by norm_num)]
  exact Int.ediv_neg' (by omega) (by norm_num)

/-- Witness for C8 at the concrete completion date 2020-08-25 against the
plan 2020-09-01: the date precedes the plan and the delay is negative. -/
theorem C8_delay_days_witness :
    date_2020_08_25 < date_2020_09_01
    ∧ ((TimelineTracker.init date_2020_09_01 "Launch").mark_completed 0
        (some date_2020_08_25)).get_delay_days 0 < 0 :=
  ⟨by decide,
    (C8_delay_days_after_explicit_completion
      (TimelineTracker.init date_2020_09_01 "Launch") 0 date_2020_08_25 0).2.1
      (by decide)⟩

/-- C9: `actual_end_date` starts as `None` after construction, every
`mark_completed` call (with an explicit date or with `None`) sets it to a
non-`None` value, and once it is non-`None` no sequence of further
`mark_completed` calls ever makes it `None` again. -/
theorem C9_no_reverse_transition (planned : Int) (name : String)
    (t : TimelineTracker) (now : Int) (c : Option Int)
    (u : TimelineTracker) (calls : List CompletionCall)
    (h : u.actual_end_date.isSome) :
    (TimelineTracker.init planned name).actual_end_date = none
    ∧ (t.mark_completed now c).actual_end_date.isSome
    ∧ (applyCompletions u calls).actual_end_date.isSome :=
  ⟨rfl, by simp [TimelineTracker.mark_completed],
    applyCompletions_isSome u calls h⟩

/-- Witness for C9 at a concrete completed tracker and a concrete call
sequence containing both a `None` and an explicit-date call. -/
theorem C9_no_reverse_transition_witness :
    (TimelineTracker.mk "M" 0 (some 5)).actual_end_date.isSome
    ∧ (applyCompletions (TimelineTracker.mk "M" 0 (some 5))
        [CompletionCall.mk 1 none, CompletionCall.mk 2 (some 3)]).actual_end_date.isSome :=
  ⟨by decide,
    (C9_no_reverse_transition 0 "M" (TimelineTracker.mk "M" 0 (some 5)) 1 none
      (TimelineTracker.mk "M" 0 (some 5))
      [CompletionCall.mk 1 none, CompletionCall.mk 2 (some 3)]
      (by decide)).2.2⟩

/-- C10: the query methods `get_budget_variance` and
`get_budget_utilization` on `BudgetTracker`, and `is_delayed` and
`get_delay_days` on `TimelineTracker`, leave the entire tracker state —
hence every field — unchanged. -/
theorem C10_queries_leave_state_unchanged (b : BudgetTracker)
    (t : TimelineTracker) (now : Int) :
    (BudgetTracker.get_budget_variance_s.run b).2 = b
    ∧ (BudgetTracker.get_budget_utilization_s.run b).2 = b
    ∧ ((TimelineTracker.is_delayed_s now).run t).2 = t
    ∧ ((TimelineTracker.get_delay_days_s now).run t).2 = t := by
  obtain ⟨tn, tp, ta⟩ := t
  refine ⟨rfl, ?_, ?_, ?_⟩
  · by_cases h : b.planned_budget = 0 <;>
      simp [BudgetTracker.get_budget_utilization_s, h, StateT.run, bind,
        StateT.bind, get, getThe, MonadStateOf.get, StateT.get, pure, StateT.pure]
  · cases ta <;> rfl
  · cases ta <;> rfl
